import Mathlib

/-
  Verification development for the wiki-extractor repository.

  The Python sources are shallowly embedded over `Str := List Char`.
  Python strings are modelled as lists of characters (ASCII scope: the
  case-mapping and whitespace predicates implement the ASCII fragment of
  Python's `str.lower`/`str.upper`/`str.strip`, which is all the inputs
  exercised here use).  Python `None` results of the expansion engine are
  the `discard` constructor, uncaught Python exceptions are `crash`, and
  the engine is fueled (`outOfFuel` reports fuel exhaustion; every
  recursive call of the Python engine consumes one unit).
-/

namespace WikiX

abbrev Str := List Char

/-- Shorthand turning a Lean string literal into the `List Char` model. -/
def S (s : String) : Str := s.data

/-- Apostrophe character (written via its code point). -/
def apos : Char := Char.ofNat 39

/-- Whitespace predicate of Python's `str.strip` / `\s`, ASCII fragment. -/
def isPyWs (c : Char) : Bool :=
  c == ' ' || c == '\t' || c == '\n' || c == '\r' || c == '\x0b' || c == '\x0c'

/-- ASCII fragment of Python's `str.lower` on one character. -/
def lowerChar (c : Char) : Char :=
  if 65 ≤ c.toNat && c.toNat ≤ 90 then Char.ofNat (c.toNat + 32) else c

/-- ASCII fragment of Python's `str.upper` on one character. -/
def upperChar (c : Char) : Char :=
  if 97 ≤ c.toNat && c.toNat ≤ 122 then Char.ofNat (c.toNat - 32) else c

def lowerStr (s : Str) : Str := s.map lowerChar

def upperStr (s : Str) : Str := s.map upperChar

/-- Python `s.strip()` (ASCII whitespace fragment). -/
def pyStrip (s : Str) : Str :=
  ((s.dropWhile isPyWs).reverse.dropWhile isPyWs).reverse

/-- Python `s.strip(chars)` for an explicit character set. -/
def pyStripChars (cs : List Char) (s : Str) : Str :=
  ((s.dropWhile (cs.contains ·)).reverse.dropWhile (cs.contains ·)).reverse

/-- Python slice `s[a:b]` for non-negative bounds (clamping, empty when a ≥ b). -/
def pySlice (s : Str) (a b : Nat) : Str := (s.take b).drop a

/-- Python substring test `sub in s`. -/
def strContainsSub (s sub : Str) : Bool :=
  if sub.isPrefixOf s then true
  else
    match s with
    | [] => false
    | _ :: t => strContainsSub t sub

/-- Index of the first occurrence of `c` (Python `s.find(c)` without the -1). -/
def idxOfChar (s : Str) (c : Char) : Option Nat :=
  match s with
  | [] => none
  | d :: t => if d == c then some 0 else (idxOfChar t c).map (· + 1)

/-- Python `s.split(c)` on a single-character separator (keeps empty pieces). -/
def splitChar (s : Str) (c : Char) : List Str :=
  match s with
  | [] => [[]]
  | d :: t =>
    if d == c then [] :: splitChar t c
    else
      match splitChar t c with
      | [] => [[d]]
      | p :: ps => (d :: p) :: ps

/-- Decimal rendering of a natural number (Python `str(n)`). -/
def natToStr (n : Nat) : Str := Nat.toDigits 10 n

/-- Decimal rendering of an integer (Python `str(i)`). -/
def intToStr (i : Int) : Str :=
  if i < 0 then '-' :: natToStr i.natAbs else natToStr i.natAbs

/-! ## text_utils.py -/

/-- Loop of `find_matching_braces` (src/wiki_extractor/utils/text_utils.py,
`while i < len(text)`); `m + 1` is the brace count, `i` the absolute offset,
`stack` the pending opener offsets (head = most recent), `spans` the emitted
spans in emission order (append at the end, as Python's `spans.append`). -/
def fmbGo (m : Nat) : Nat → Str → Nat → List Nat → List (Nat × Nat) →
    List (Nat × Nat)
  | 0, _, _, _, spans => spans
  | g + 1, rest, i, stack, spans =>
    match rest with
    | [] => spans
    | c :: t =>
      if (List.replicate (m + 1) '{').isPrefixOf (c :: t) then
        fmbGo m g (t.drop m) (i + (m + 1)) (i :: stack) spans
      else if (List.replicate (m + 1) '}').isPrefixOf (c :: t) then
        match stack with
        | [] => fmbGo m g (t.drop m) (i + (m + 1)) [] spans
        | start :: stack2 =>
          fmbGo m g (t.drop m) (i + (m + 1)) stack2
            (spans ++ [(start, i + (m + 1))])
      else fmbGo m g t (i + 1) stack spans

/-- find_matching_braces (src/wiki_extractor/utils/text_utils.py lines
272-302).  Note: every matched pair is emitted (nested pairs included), in
order of the closing offset.  The recursion is paced by a structural gas
initialised to the text length, which cannot run out: every step of the
scan consumes at least one character (`i` strictly advances), so the gas
branch of `fmbGo` is unreachable from here.  The source loops forever when
`num_braces = 0` (it is only ever called with 2 or 3); we return `[]` in
that unused case. -/
def find_matching_braces (text : Str) (numBraces : Nat) : List (Nat × Nat) :=
  match numBraces with
  | 0 => []
  | m + 1 => fmbGo m text.length text 0 [] []

/-- Loop of `split_parts` (text_utils.py lines 305-359): split on top-level
`|` while `{{ }}` and `[[ ]]` adjust a (possibly negative) depth counter. -/
def spGo (rest : Str) (cur : Str) (depth : Int) (acc : List Str) : List Str :=
  match rest with
  | '{' :: '{' :: r => spGo r (cur ++ ['{', '{']) (depth + 1) acc
  | '}' :: '}' :: r => spGo r (cur ++ ['}', '}']) (depth - 1) acc
  | '[' :: '[' :: r => spGo r (cur ++ ['[', '[']) (depth + 1) acc
  | ']' :: ']' :: r => spGo r (cur ++ [']', ']']) (depth - 1) acc
  | '|' :: r =>
    if depth = 0 then spGo r [] depth (acc ++ [cur])
    else spGo r (cur ++ ['|']) depth acc
  | c :: r => spGo r (cur ++ [c]) depth acc
  | [] => if cur = [] then acc else acc ++ [cur]

/-- split_parts (text_utils.py lines 305-359).  A trailing empty piece is not
appended (`if current: parts.append(current)`), so `split_parts "" = []`. -/
def split_parts (text : Str) : List Str := spGo text [] 0 []

/-- One step of the bracket stack of `balance_brackets` (text_utils.py lines
95-115): push `{`; on `}` pop a matching `{` or push the `}`. -/
def bbStep (stack : List Char) (c : Char) : List Char :=
  if c = '{' then '{' :: stack
  else if c = '}' then
    match stack with
    | '{' :: rest => rest
    | _ => '}' :: stack
  else stack

/-- balance_brackets (src/wiki_extractor/utils/text_utils.py lines 95-115);
the `string is None` guard of the source is handled at the call sites (the
engine only calls it on an actual string). -/
def balance_brackets (s : Str) : Str :=
  let stack := s.foldl bbStep []
  List.replicate (stack.count '}') '{' ++ s ++ List.replicate (stack.count '{') '}'

/-- ucfirst (text_utils.py lines 14-22): single characters go through
`str.upper`, longer strings upper-case the first character. -/
def ucfirst (s : Str) : Str :=
  match s with
  | [] => []
  | [c] => [upperChar c]
  | c :: rest => upperChar c :: rest

/-- lcfirst (text_utils.py lines 25-33). -/
def lcfirst (s : Str) : Str :=
  match s with
  | [] => []
  | [c] => [lowerChar c]
  | c :: rest => lowerChar c :: rest

/-- Default branch of `fully_qualified_template_title`: qualify into the
Template namespace (empty titles yield the empty string). -/
def defaultQual (t : Str) : Str :=
  if t = [] then [] else S ("Template:") ++ ucfirst t

/-- fully_qualified_template_title (text_utils.py lines 205-232), with the
default `template_prefix='Template:'` and `KNOWN_NAMESPACES = {'Template'}`
from config.  The regex `([^:]*)(:.*)` matches exactly when a colon occurs;
group 1 is the part before the first colon, group 2 starts at that colon. -/
def fully_qualified_template_title (t : Str) : Str :=
  match t with
  | ':' :: rest => ucfirst rest
  | _ =>
    match idxOfChar t ':' with
    | some i =>
      if ucfirst (t.take i) = S ("Template") then
        ucfirst (t.take i) ++ ucfirst (t.drop i)
      else defaultQual t
    | none => defaultQual t

/-! ## Analysis of `balance_brackets` via a pair automaton

The stack of `balance_brackets` always has the shape
`'{'^b ++ '}'^a` (unmatched openers on top of unmatched closers), so the
computation is tracked by the pair `(a, b)` of those two counts. -/

/-- Pair automaton tracking `(unmatched closers, unmatched openers)`. -/
def pairStep (p : Nat × Nat) (c : Char) : Nat × Nat :=
  if c = '{' then (p.1, p.2 + 1)
  else if c = '}' then
    match p.2 with
    | 0 => (p.1 + 1, 0)
    | b + 1 => (p.1, b)
  else p

def pairRun (s : Str) : Nat × Nat := s.foldl pairStep (0, 0)

theorem bbStep_shape (a b : Nat) (c : Char) :
    bbStep (List.replicate b '{' ++ List.replicate a '}') c =
      List.replicate (pairStep (a, b) c).2 '{' ++
        List.replicate (pairStep (a, b) c).1 '}' := by
  unfold bbStep pairStep
  by_cases h1 : c = '{'
  · simp [h1, List.replicate_succ]
  · by_cases h2 : c = '}'
    · cases b with
      | zero =>
        cases a with
        | zero => simp [h1, h2, List.replicate_succ]
        | succ a' => simp [h1, h2, List.replicate_succ]
      | succ b' => simp [h1, h2, List.replicate_succ]
    · simp [h1, h2]

theorem bb_foldl_shape (s : Str) :
    ∀ a b : Nat,
      s.foldl bbStep (List.replicate b '{' ++ List.replicate a '}') =
        List.replicate (s.foldl pairStep (a, b)).2 '{' ++
          List.replicate (s.foldl pairStep (a, b)).1 '}' := by
  induction s with
  | nil => intro a b; simp
  | cons c t ih =>
    intro a b
    have h := bbStep_shape a b c
    simp only [List.foldl_cons, h]
    have := ih (pairStep (a, b) c).1 (pairStep (a, b) c).2
    simpa using this

theorem bb_stack_eq (s : Str) :
    s.foldl bbStep [] =
      List.replicate (pairRun s).2 '{' ++ List.replicate (pairRun s).1 '}' := by
  have := bb_foldl_shape s 0 0
  simpa [pairRun] using this

theorem count_replicate_same (n : Nat) (c : Char) :
    (List.replicate n c).count c = n := by
  induction n with
  | zero => simp
  | succ k ih => simp [List.replicate_succ, List.count_cons, ih]

theorem count_replicate_other (n : Nat) (c d : Char) (h : c ≠ d) :
    (List.replicate n c).count d = 0 := by
  induction n with
  | zero => simp
  | succ k ih => simp [List.replicate_succ, List.count_cons, ih, h, Ne.symm h]

theorem balance_brackets_eq (s : Str) :
    balance_brackets s =
      List.replicate (pairRun s).1 '{' ++ s ++ List.replicate (pairRun s).2 '}' := by
  show (let stack := s.foldl bbStep [];
    List.replicate (stack.count '}') '{' ++ s ++ List.replicate (stack.count '{') '}') = _
  rw [bb_stack_eq s]
  have hne : ('{' : Char) ≠ '}' := by decide
  simp only [List.count_append, count_replicate_same,
    count_replicate_other _ _ _ hne, count_replicate_other _ _ _ (Ne.symm hne),
    Nat.zero_add, Nat.add_zero]

/-- Composing the pair automaton from an arbitrary starting state: the run of
`s` from `(a, b)` is the bicyclic-monoid action of `pairRun s` on `(a, b)`. -/
theorem pairRun_from (s : Str) :
    ∀ a b : Nat,
      s.foldl pairStep (a, b) =
        (a + ((pairRun s).1 - b), (pairRun s).2 + (b - (pairRun s).1)) := by
  induction s with
  | nil => intro a b; simp [pairRun]
  | cons c t ih =>
    intro a b
    have hrun : pairRun (c :: t) = t.foldl pairStep (pairStep (0, 0) c) := by
      simp [pairRun]
    simp only [List.foldl_cons, hrun]
    by_cases h1 : c = '{'
    · subst h1
      have e1 : pairStep (a, b) '{' = (a, b + 1) := by simp [pairStep]
      have e2 : pairStep (0, 0) '{' = (0, 0 + 1) := by simp [pairStep]
      rw [e1, e2, ih a (b + 1), ih 0 (0 + 1)]
      rcases hxy : pairRun t with ⟨x, y⟩
      simp only [hxy, Prod.mk.injEq]
      constructor <;> first | trivial | omega
    · by_cases h2 : c = '}'
      · subst h2
        cases b with
        | zero =>
          have e1 : pairStep (a, 0) '}' = (a + 1, 0) := by simp [pairStep]
          have e2 : pairStep (0, 0) '}' = (0 + 1, 0) := by simp [pairStep]
          rw [e1, e2, ih (a + 1) 0, ih (0 + 1) 0]
          rcases hxy : pairRun t with ⟨x, y⟩
          simp only [hxy, Prod.mk.injEq]
          constructor <;> first | trivial | omega
        | succ b' =>
          have e1 : pairStep (a, b' + 1) '}' = (a, b') := by simp [pairStep]
          have e2 : pairStep (0, 0) '}' = (0 + 1, 0) := by simp [pairStep]
          rw [e1, e2, ih a b', ih (0 + 1) 0]
          rcases hxy : pairRun t with ⟨x, y⟩
          simp only [hxy, Prod.mk.injEq]
          constructor <;> first | trivial | omega
      · have e1 : pairStep (a, b) c = (a, b) := by simp [pairStep, h1, h2]
        have e2 : pairStep (0, 0) c = (0, 0) := by simp [pairStep, h1, h2]
        rw [e1, e2, ih a b, ih 0 0]
        rcases hxy : pairRun t with ⟨x, y⟩
        simp only [hxy, Prod.mk.injEq]
        constructor <;> first | trivial | omega

theorem pairRun_replicate_open (k : Nat) :
    ∀ a b : Nat, (List.replicate k '{').foldl pairStep (a, b) = (a, b + k) := by
  induction k with
  | zero => intro a b; simp
  | succ k' ih =>
    intro a b
    simp only [List.replicate_succ, List.foldl_cons]
    have hstep : pairStep (a, b) '{' = (a, b + 1) := by simp [pairStep]
    rw [hstep, ih]
    simp only [Prod.mk.injEq]
    constructor <;> first | trivial | omega

theorem pairRun_replicate_close (k : Nat) :
    ∀ a b : Nat,
      (List.replicate k '}').foldl pairStep (a, b) = (a + (k - b), b - k) := by
  induction k with
  | zero => intro a b; simp
  | succ k' ih =>
    intro a b
    simp only [List.replicate_succ, List.foldl_cons]
    have hstep : pairStep (a, b) '}' =
        (if b = 0 then (a + 1, 0) else (a, b - 1)) := by
      cases b with
      | zero => simp [pairStep]
      | succ b' => simp [pairStep]
    rw [hstep]
    by_cases hb : b = 0
    · rw [if_pos hb, ih (a + 1) 0]
      simp only [Prod.mk.injEq]
      constructor <;> first | trivial | omega
    · rw [if_neg hb, ih a (b - 1)]
      simp only [Prod.mk.injEq]
      constructor <;> first | trivial | omega

theorem pairRun_balanced (s : Str) : pairRun (balance_brackets s) = (0, 0) := by
  rw [balance_brackets_eq s]
  rcases h : pairRun s with ⟨a, b⟩
  unfold pairRun
  rw [List.foldl_append, List.foldl_append]
  rw [pairRun_replicate_open a 0 0]
  simp only [Nat.zero_add]
  have hs := pairRun_from s 0 a
  rw [h] at hs
  simp only at hs
  rw [hs]
  have h2 : (0 + (a - a), b + (a - a)) = (0, b) := by
    simp only [Prod.mk.injEq]
    constructor <;> first | trivial | omega
  rw [h2, pairRun_replicate_close b 0 b]
  simp only [Prod.mk.injEq]
  constructor <;> first | trivial | omega

/-! ## utils/parser_functions.py -/

/-- ASCII fragment of the regex class `\w`. -/
def isWordChar (c : Char) : Bool := c.isAlpha || c.isDigit || c == '_'

/-- sharp_if (parser_functions.py lines 40-48).  A non-empty trimmed test
returns the trimmed then-value (empty stays empty: the inner truthiness
check falls through to `return ""`); otherwise a truthy else-argument is
returned trimmed. -/
def sharp_if (test thenV : Str) (elseV : Option Str) : Str :=
  if pyStrip test ≠ [] then pyStrip thenV
  else
    match elseV with
    | some e => if e ≠ [] then pyStrip e else []
    | none => []

/-- sharp_ifeq (src/wiki_extractor/utils/parser_functions.py lines 50-58).
Note the guard `if rvalue and ...`: when the second value trims to the empty
string the equal branch is never taken. -/
def sharp_ifeq (l r t : Str) (f : Option Str) : Str :=
  let rv := pyStrip r
  if rv ≠ [] ∧ pyStrip l = rv then
    if t ≠ [] then pyStrip t else []
  else
    match f with
    | some e => if e ≠ [] then pyStrip e else []
    | none => []

/-- Matcher for the error-span regex of sharp_iferror
(`<(?:strong|span|p|div)\s(?:[^\s>]*\s+)*?class="(?:[^"\s>]*\s+)*?error(?:\s[^">]*)?"`,
applied with `re.match`).  The lazy repetitions `(?:[^\s>]*\s+)*?` reach
exactly the offsets whose consumed region contains no `>` (resp. no `>` and
no quote) and is empty or ends in a whitespace character, so the matcher
quantifies over those offsets. -/
def errRegexMatch (s : Str) : Bool :=
  match s with
  | '<' :: s1 =>
    [S ("strong"), S ("span"), S ("p"), S ("div")].any (fun tag =>
      tag.isPrefixOf s1 &&
      (match s1.drop tag.length with
       | c :: u =>
         isPyWs c &&
         ((List.range (u.length + 1)).any (fun p =>
           (u.take p).all (· != '>') &&
           (decide (p = 0) || ((u.get? (p - 1)).any isPyWs)) &&
           (S ("class=\"")).isPrefixOf (u.drop p) &&
           (let v := u.drop (p + 7)
            (List.range (v.length + 1)).any (fun q =>
              (v.take q).all (fun c2 => c2 != '"' && c2 != '>') &&
              (decide (q = 0) || ((v.get? (q - 1)).any isPyWs)) &&
              (S ("error")).isPrefixOf (v.drop q) &&
              (let w := v.drop (q + 5)
               (w.head? == some '"') ||
               (match w with
                | c3 :: w2 =>
                  isPyWs c3 &&
                  ((List.range (w2.length + 1)).any (fun r =>
                    (w2.take r).all (fun c4 => c4 != '"' && c4 != '>') &&
                    (w2.get? r == some '"')))
                | [] => false))))))
       | [] => false))
  | _ => false

/-- sharp_iferror (parser_functions.py lines 60-64); `thenV` is the second
argument (Python default `''`), `elseV` the third (default `None`). -/
def sharp_iferror (test : Str) (thenV : Option Str) (elseV : Option Str) : Str :=
  if errRegexMatch test then thenV.getD []
  else
    match elseV with
    | none => pyStrip test
    | some e => pyStrip e

/-- Label of a `#switch` case: the trimmed part before the first `=`
(`param.split('=', 1)`). -/
def switchLabel (param : Str) : Str :=
  match idxOfChar param '=' with
  | some j => pyStrip (param.take j)
  | none => pyStrip param

/-- Value of a `#switch` case: `None` for a bare (equals-free) case. -/
def switchValue (param : Str) : Option Str :=
  match idxOfChar param '=' with
  | some j => some (pyStrip (param.drop (j + 1)))
  | none => none

/-- Loop of sharp_switch (src/wiki_extractor/utils/parser_functions.py lines
66-82).  The `found` flag of the source is initialised `False` and never
reassigned, so a matching case returns its own (possibly empty, possibly
`None`) value immediately; after the loop `rvalue` is always `None` (it is
reset at the end of every iteration), so the final statement returns
`default or ''`. -/
def switchGo (pr : Str) : List Str → Option Str → Option Str
  | [], dflt => some (dflt.getD [])
  | param :: rest, dflt =>
    if pr ∈ (splitChar (switchLabel param) '|').map pyStrip then switchValue param
    else
      switchGo pr rest
        (if switchLabel param = S ("#default") then switchValue param else dflt)

/-- sharp_switch (parser_functions.py lines 66-82); a `none` result is
Python's `None` return value (a matched bare case). -/
def sharp_switch (primary : Str) (params : List Str) : Option Str :=
  switchGo (pyStrip primary) params none

/-- UTF-8 bytes of one character (for urlencode). -/
def utf8Bytes (c : Char) : List Nat :=
  let n := c.toNat
  if n < 128 then [n]
  else if n < 2048 then [192 + n / 64, 128 + n % 64]
  else if n < 65536 then [224 + n / 4096, 128 + (n / 64) % 64, 128 + n % 64]
  else [240 + n / 262144, 128 + (n / 4096) % 64, 128 + (n / 64) % 64, 128 + n % 64]

/-- Upper-case hexadecimal digit. -/
def hexDigit (n : Nat) : Char :=
  if n < 10 then Char.ofNat (48 + n) else Char.ofNat (55 + n)

/-- Characters `urllib.parse.quote` keeps verbatim with the default
`safe='/'`: the always-safe set plus the slash. -/
def quoteSafe (c : Char) : Bool :=
  c.isAlphanum || c == '_' || c == '.' || c == '-' || c == '~' || c == '/'

/-- urllib.parse.quote with default arguments, as used by the `urlencode`
parser function. -/
def pyQuote (s : Str) : Str :=
  s.foldr
    (fun c acc =>
      (if quoteSafe c then [c]
       else (utf8Bytes c).foldr
         (fun b acc2 => '%' :: hexDigit (b / 16) :: hexDigit (b % 16) :: acc2) [])
        ++ acc)
    []

/-- Digit run of Python `int()` after the first digit: single underscores are
allowed between digits. -/
def digitsGo : Str → Nat → Option Nat
  | [], acc => some acc
  | '_' :: c :: rest, acc =>
    if c.isDigit then digitsGo rest (acc * 10 + (c.toNat - 48)) else none
  | ['_'], _ => none
  | c :: rest, acc =>
    if c.isDigit then digitsGo rest (acc * 10 + (c.toNat - 48)) else none

/-- Digit part of Python `int()` (non-empty, underscores between digits). -/
def digitsVal : Str → Option Nat
  | [] => none
  | c :: rest => if c.isDigit then digitsGo rest (c.toNat - 48) else none

/-- Python `int(s)` (ASCII fragment): optional surrounding whitespace,
optional sign, decimal digits with single interior underscores. -/
def pyParseInt (s : Str) : Option Int :=
  match pyStrip s with
  | '+' :: rest => (digitsVal rest).map Int.ofNat
  | '-' :: rest => (digitsVal rest).map (fun n => -(Int.ofNat n : Int))
  | rest => (digitsVal rest).map Int.ofNat

/-- Substitution of every occurrence of `pat` (no word boundaries), as
`re.sub('mod', '%', ...)` does. -/
def subAllGo (pat rep : Str) : Nat → Str → Str
  | 0, s => s
  | _, [] => []
  | g + 1, c :: t =>
    if !pat.isEmpty && pat.isPrefixOf (c :: t) then
      rep ++ subAllGo pat rep g (t.drop (pat.length - 1))
    else c :: subAllGo pat rep g t

/-- Substitution of every occurrence of `pat` (gas = length of the subject,
sufficient because each step consumes at least one character). -/
def subAll (pat rep s : Str) : Str := subAllGo pat rep s.length s

/-- Word-boundary substitution `re.sub(r'\b<pat>\b', rep, s)` for a pattern
made of word characters; `prev` is the character of the original string just
before the current position. -/
def boundaryNot (oc : Option Char) : Bool :=
  match oc with
  | none => true
  | some d => !(isWordChar d)

def subWordGo (pat rep : Str) : Nat → Option Char → Str → Str
  | 0, _, s => s
  | _, _, [] => []
  | g + 1, prev, c :: t =>
    if !pat.isEmpty && pat.isPrefixOf (c :: t) && boundaryNot prev &&
        boundaryNot (t.drop (pat.length - 1)).head? then
      rep ++ subWordGo pat rep g pat.getLast? (t.drop (pat.length - 1))
    else c :: subWordGo pat rep g (some c) t

/-- Word-boundary substitution wrapper (gas = subject length, sufficient as
each step consumes at least one character). -/
def subWord (pat rep : Str) (prev : Option Char) (s : Str) : Str :=
  subWordGo pat rep s.length prev s

/-- Rewrites of sharp_expr (parser_functions.py lines 29-38): `=` → `==`,
every `mod` → `%`, word-bounded `div` → `/`, word-bounded `round` →
`|ROUND|`, in this order. -/
def exprRewrite (e : Str) : Str :=
  let e1 := e.foldr (fun c acc => (if c = '=' then ['=', '='] else [c]) ++ acc) []
  let e2 := subAll (S ("mod")) (S ("%")) e1
  let e3 := subWord (S ("div")) (S ("/")) none e2
  subWord (S ("round")) (S ("|ROUND|")) none e3

/-- call_parser_function (src/wiki_extractor/utils/parser_functions.py lines
97-127).  `ev` abstracts the `str(eval(...))`-with-fallback of sharp_expr
(dynamic Python evaluation, an external facility of the host language); all
argument-count errors are swallowed by the `try/except` and yield `''`.  A
`none` result is a Python `None` return value (only `#switch` produces one).
`#invoke` always yields `''` because the `modules` table is empty, and
`padleft` always raises (`str.ljust` rejects a string width) so it yields
`''` as well. -/
def call_parser_function (ev : Str → Str) (funct : Str) (args : List Str) :
    Option Str :=
  if funct = S ("#invoke") then some []
  else if funct = S ("#expr") then
    match args with
    | [e] => some (ev (exprRewrite e))
    | _ => some []
  else if funct = S ("#if") then
    match args with
    | t :: th :: rest => some (sharp_if t th rest.head?)
    | _ => some []
  else if funct = S ("#ifeq") then
    match args with
    | l :: r :: t :: rest => some (sharp_ifeq l r t rest.head?)
    | _ => some []
  else if funct = S ("#iferror") then
    match args with
    | t :: rest => some (sharp_iferror t rest.head? rest.tail.head?)
    | _ => some []
  else if funct ∈ [S ("#ifexpr"), S ("#ifexist"), S ("#rel2abs"), S ("#language"),
      S ("#time"), S ("#timel"), S ("#titleparts")] then some []
  else if funct = S ("#switch") then
    match args with
    | p :: rest => sharp_switch p rest
    | [] => some []
  else if funct = S ("urlencode") then
    match args with
    | x :: _ => some (pyQuote x)
    | [] => some []
  else if funct = S ("lc") then
    match args with
    | x :: _ => some (lowerStr x)
    | [] => some []
  else if funct = S ("lcfirst") then
    match args with
    | x :: _ => some (lcfirst x)
    | [] => some []
  else if funct = S ("uc") then
    match args with
    | x :: _ => some (upperStr x)
    | [] => some []
  else if funct = S ("ucfirst") then
    match args with
    | x :: _ => some (ucfirst x)
    | [] => some []
  else if funct = S ("int") then
    match args with
    | x :: _ =>
      match pyParseInt x with
      | some i => some (intToStr i)
      | none => some []
    | [] => some []
  else if funct = S ("padleft") then some []
  else some []

/-! ## templates/template_engine.py -/

/-- The `config.settings` module imported by the sources is absent from the
tree; `config/config.py` defines the same names with these values, and
template_engine.py itself fixes the parameter ceiling to 16. -/
def MAX_TEMPLATE_RECURSION_LEVELS : Nat := 30

def MAX_PARAMETER_RECURSION_LEVELS : Nat := 16

/-- Python-dict insertion: an existing key is updated in place, a new key is
appended (insertion order preserved, last assignment wins). -/
def dictInsert (d : List (Str × Str)) (k v : Str) : List (Str × Str) :=
  if d.any (fun p => p.1 == k) then
    d.map (fun p => if p.1 == k then (k, v) else p)
  else d ++ [(k, v)]

/-- Lookup in an insertion-ordered dictionary. -/
def lookupDict (d : List (Str × Str)) (k : Str) : Option Str :=
  (d.find? (fun p => p.1 == k)).map (·.2)

/-- Loop of parse_template_parameters (src/src/.../template_engine.py lines
243-311).  The named-parameter regex `" *([^=']*?) *=(.*)"` matches exactly
when the argument contains `=` and no apostrophe occurs before the first
`=`; its stripped group 1 equals the stripped prefix.  A `none` argument (a
discarded parameter expansion) raises `TypeError` in `re.match`, which the
source catches with `continue`.  The positional counter advances only in
the unnamed branch. -/
def ptpGo : List (Option Str) → Nat → List (Str × Str) → List (Str × Str)
  | [], _, d => d
  | none :: rest, ctr, d => ptpGo rest ctr d
  | some p :: rest, ctr, d =>
    match idxOfChar p '=' with
    | some i =>
      if (p.take i).contains apos then
        -- apostrophe before the first `=`: the regex cannot match → unnamed
        let pv := if strContainsSub p (S ("]]")) then p else pyStrip p
        ptpGo rest (ctr + 1) (dictInsert d (natToStr (ctr + 1)) pv)
      else
        let name := pyStrip (p.take i)
        let v0 := p.drop (i + 1)
        let v := if strContainsSub v0 (S ("]]")) then v0 else pyStrip v0
        ptpGo rest ctr (dictInsert d name v)
    | none =>
      let pv := if strContainsSub p (S ("]]")) then p else pyStrip p
      ptpGo rest (ctr + 1) (dictInsert d (natToStr (ctr + 1)) pv)

/-- parse_template_parameters (src/src/.../template_engine.py lines 243-311). -/
def parse_template_parameters (parameters : List (Option Str)) :
    List (Str × Str) :=
  ptpGo parameters 0 []

/-- Node of the parsed template AST (template_engine.py `Template`,
`TemplateText`, `TemplateArg`): literal text, or a parameter with a
name-template and optional default-template. -/
inductive TNode where
  | text : Str → TNode
  | arg : List TNode → Option (List TNode) → TNode

theorem fmb_nil (n : Nat) : find_matching_braces [] n = [] := by
  cases n <;> simp [find_matching_braces, fmbGo]

theorem spGo_mem (rest cur : List Char) (depth : Int) (acc : List Str) :
    ∀ p ∈ spGo rest cur depth acc,
      p ∈ acc ∨ p.length ≤ cur.length + rest.length := by
  induction rest, cur, depth, acc using spGo.induct with
  | case1 cur depth acc r ih =>
    intro p hp
    rw [spGo] at hp
    rcases ih p hp with h | h
    · left; exact h
    · right
      simp only [List.length_append, List.length_cons, List.length_nil] at h ⊢
      omega
  | case2 cur depth acc r ih =>
    intro p hp
    rw [spGo] at hp
    rcases ih p hp with h | h
    · left; exact h
    · right
      simp only [List.length_append, List.length_cons, List.length_nil] at h ⊢
      omega
  | case3 cur depth acc r ih =>
    intro p hp
    rw [spGo] at hp
    rcases ih p hp with h | h
    · left; exact h
    · right
      simp only [List.length_append, List.length_cons, List.length_nil] at h ⊢
      omega
  | case4 cur depth acc r ih =>
    intro p hp
    rw [spGo] at hp
    rcases ih p hp with h | h
    · left; exact h
    · right
      simp only [List.length_append, List.length_cons, List.length_nil] at h ⊢
      omega
  | case5 cur acc r ih =>
    intro p hp
    rw [spGo] at hp
    simp only [if_pos rfl] at hp
    rcases ih p hp with h | h
    · rcases List.mem_append.mp h with h2 | h2
      · left; exact h2
      · right
        simp only [List.mem_singleton] at h2
        subst h2
        simp only [List.length_cons]
        omega
    · right
      simp only [List.length_nil, List.length_cons] at h ⊢
      omega
  | case6 cur depth acc r hdep ih =>
    intro p hp
    rw [spGo] at hp
    simp only [if_neg hdep] at hp
    rcases ih p hp with h | h
    · left; exact h
    · right
      simp only [List.length_append, List.length_cons, List.length_nil] at h ⊢
      omega
  | case7 cur depth acc c r h1 h2 h3 h4 h5 ih =>
    intro p hp
    rw [spGo.eq_6 cur depth acc c r h1 h2 h3 h4 h5] at hp
    rcases ih p hp with h | h
    · left; exact h
    · right
      simp only [List.length_append, List.length_cons, List.length_nil] at h ⊢
      omega
  | case8 depth acc =>
    intro p hp
    rw [spGo] at hp
    simp only [if_pos rfl] at hp
    left; exact hp
  | case9 cur depth acc hc =>
    intro p hp
    rw [spGo] at hp
    simp only [if_neg hc] at hp
    rcases List.mem_append.mp hp with h2 | h2
    · left; exact h2
    · right
      simp only [List.mem_singleton] at h2
      subst h2
      simp


mutual

/-- Template.parse (src/src/.../template_engine.py lines 107-130): walk the
triple-brace spans (in the order `find_matching_braces` emits them) with a
start cursor, emitting a literal node and an argument node per span and a
final literal for the leftover text.  The mutual recursion is paced by a
structural gas (one unit per call); `templateParse` initialises it
generously (see there), making the gas branches unreachable. -/
def parseTemplate : Nat → Str → Except Unit (List TNode)
  | 0, _ => .error ()
  | g + 1, body => parseFold g body 0 (find_matching_braces body 3)

/-- Loop of Template.parse over the spans, carrying the start cursor. -/
def parseFold : Nat → Str → Nat → List (Nat × Nat) → Except Unit (List TNode)
  | 0, _, _, _ => .error ()
  | g + 1, body, prev, spans =>
    match spans with
    | [] => .ok [TNode.text (body.drop prev)]
    | (s, e) :: rest => do
      let a ← parseTArg g (pySlice body (s + 3) (e - 3))
      let tail ← parseFold g body e rest
      pure (TNode.text (pySlice body prev s) :: a :: tail)

/-- TemplateArg.__init__ (template_engine.py lines 185-205): split the span
interior on top-level pipes; `parts[0]` raises IndexError on an empty
interior (`split_parts('') = []`), which is an uncaught crash; otherwise the
name is parsed from the first part and the default from the second. -/
def parseTArg : Nat → Str → Except Unit TNode
  | 0, _ => .error ()
  | g + 1, param =>
    match split_parts param with
    | [] => .error ()
    | p0 :: rest => do
      let name ← parseTemplate g p0
      match rest with
      | [] => pure (TNode.arg name none)
      | p1 :: _ => do
        let d ← parseTemplate g p1
        pure (TNode.arg name (some d))

end

/-- Template.parse entry point.  Each `parseTArg` descends into a span
interior at least three characters shorter, and `parseFold` steps once per
span (at most `length / 6` spans per level), so the call depth is well below
`2 * length + 4`; with that gas the `.error` gas branches are unreachable
and the function agrees with the source. -/
def templateParse (body : Str) : Except Unit (List TNode) :=
  parseTemplate (2 * body.length + 4) body

/-- TemplateText.subst returns the text unchanged; TemplateArg.subst always
reaches `extractor.expandTemplates(param_name)` (template_engine.py line
229), and the object passed as `extractor` is the TemplateProcessor (both
template_processor.py copies call `template.subst(params, self)`), which has
only `expand_templates` — the attribute access raises an uncaught
AttributeError.  So substitution of any parsed argument node crashes. -/
def substNode (n : TNode) : Except Unit Str :=
  match n with
  | .text s => .ok s
  | .arg _ _ => .error ()

/-- Template.subst (template_engine.py lines 132-154): above the parameter
recursion ceiling return `''`, otherwise join the node substitutions. -/
def substTemplate (tpl : List TNode) (depth : Nat) : Except Unit Str :=
  if depth > MAX_PARAMETER_RECURSION_LEVELS then .ok []
  else do
    let pieces ← tpl.mapM substNode
    pure pieces.flatten

/-! ## template_processor.py — the expansion engine

State: `self.frame` of the TemplateProcessor (head = most recently pushed,
matching Python's `list.append`/`list.pop()` LIFO use).  The error counters
(`recursion_exceeded_*`, `template_title_errs`) are diagnostic only and are
not modelled.  The `templates`/`templateCache` pair is modelled as the single
lookup `Env.templates`: the cache only memoises the deterministic
`Template.parse`, moving entries between the two dicts that are consulted in
sequence, so the observable lookup function never changes. -/

abbrev Frame := Str × List (Str × Str)

/-- Result of an engine call: fuel exhaustion of the model, an uncaught
Python exception, Python's `None` (the discard signal), or a string. -/
inductive EResult where
  | outOfFuel
  | crash
  | discard
  | ok (s : Str)
deriving Repr, DecidableEq

/-- Collaborators and configuration of one extraction:
`templates`/`redirects` are the template store and redirect map;
`ignoreTemplates`/`discardTemplates` the caller-supplied sets (consulted with
lower-cased titles); `magicWords` the MagicWords values dict; `resolve`
models `babel.Locale.parse(iso).get_display_name(language)` (`none` covers
`UnknownLocaleError` and every other failure of the `try`); `htmlFlatten`
models `BeautifulSoup(x, 'html.parser').get_text()` with its `try/except`
(an external collaborator, total); `evalExpr` models `str(eval(...))` of
sharp_expr together with its `except` fallback to the error-span marker
(dynamic evaluation by the host language, abstract). -/
structure Env where
  templates : List (Str × Str)
  redirects : List (Str × Str)
  ignoreTemplates : List Str
  discardTemplates : List Str
  magicWords : List (Str × Str)
  resolve : Str → Str → Option Str
  htmlFlatten : Str → Str
  evalExpr : Str → Str

/-- Dictionary lookup (`dict.get`). -/
def assoc (l : List (Str × Str)) (k : Str) : Option Str :=
  (l.find? (fun p => p.1 == k)).map (·.2)

/-- Alternatives of `NOT_EXPAND_TEMPLATES_RE` that act as case-insensitive
literal prefixes (config/config.py `NOT_EXPAND_TEMPLATES_PATTERNS`). -/
def notExpandLits : List Str :=
  [[apos], S ("!"), S ("isbn"), S ("notelist"), S ("rp"), S ("mf"),
   S ("pie chart"), S ("graph"), S ("flag"), S ("pdf"), S ("increase"),
   S ("decrease"), S ("color")]

/-- `re.match(NOT_EXPAND_TEMPLATES_RE, title)`: some alternative matches at
offset 0.  The literal alternatives are prefix tests (case-insensitive);
`^\s+$` holds exactly for non-empty all-whitespace titles; the
`(.*)Infobox(.*)`-style alternatives hold when the substring occurs in the
first line (`.` does not cross a newline). -/
def notExpandMatch (title : Str) : Bool :=
  let lt := lowerStr title
  notExpandLits.any (fun p => p.isPrefixOf lt) ||
  (!title.isEmpty && title.all isPyWs) ||
  strContainsSub (lt.takeWhile (· != '\n')) (S ("infobox")) ||
  strContainsSub (lt.takeWhile (· != '\n')) (S ("infotable")) ||
  strContainsSub (lt.takeWhile (· != '\n')) (S ("image"))

/-- The `lang-XX` branch (template_processor.py lines 124-147).  The iso code
comes from `parts[0].split('-')[1]` (the raw first part); a missing piece or
a missing second argument raises IndexError, caught by the bare `except`
which returns `parts[1]` when present and `''` otherwise; a locale-lookup
failure behaves the same way. -/
def langDashResult (env : Env) (lang : Option Str) (parts : List Str) : Str :=
  match lang with
  | none => []
  | some l =>
    if l = [] then []
    else
      match splitChar (parts.getD 0 []) '-' with
      | _ :: iso :: _ =>
        match env.resolve iso l with
        | some name =>
          if 2 ≤ parts.length then name ++ ':' :: parts.getD 1 [] else []
        | none =>
          if 2 ≤ parts.length then parts.getD 1 [] else []
      | _ =>
        if 2 ≤ parts.length then parts.getD 1 [] else []

/-- `re.match(r'\w*(=|:)\w*', e)`: the maximal word-character run from the
start is followed by `=` or `:`. -/
def reMatchWordEq (e : Str) : Bool :=
  match (e.dropWhile isWordChar).head? with
  | some c => c == '=' || c == ':'
  | none => false

/-- First character of `e` equals `c` case-insensitively (`re.match('N', e,
re.IGNORECASE)` and friends). -/
def headIs (e : Str) (c : Char) : Bool :=
  match e.head? with
  | some d => lowerChar d == c
  | none => false

/-- Scanning loop of the coord branch (template_processor.py lines 190-209),
returning `(coord_1, coord_2, coord_1_dir, coord_2_dir)`; the two `break`
statements end the scan. -/
def coordScan : List Str → List Str → List Str → Str → Str → Bool →
    List Str × List Str × Str × Str
  | [], c1, c2, d1, d2, _ => (c1, c2, d1, d2)
  | e :: rest, c1, c2, d1, d2, completed =>
    if headIs e 'n' || headIs e 's' then coordScan rest c1 c2 e d2 true
    else if !completed then coordScan rest (c1 ++ [e]) c2 d1 d2 completed
    else if headIs e 'w' || headIs e 'e' then (c1, c2, d1, e)
    else if !(reMatchWordEq e) then coordScan rest c1 (c2 ++ [e]) d1 d2 completed
    else (c1, c2, d1, d2)

/-- The coord branch (template_processor.py lines 185-223); the auxiliary
markers are `['º', "'", "''"]` and at most three components are joined. -/
def coordResult (parts : List Str) : Str :=
  if parts.length = 3 then
    parts.getD 1 [] ++ S ("ºN, ") ++ parts.getD 2 [] ++ S (" ºW")
  else
    match coordScan parts.tail [] [] [] [] false with
    | (c1, c2, d1, d2) =>
      let aux := [S ("º"), [apos], [apos, apos]]
      if c1.any (fun x => !x.isEmpty) && decide (c1.length = c2.length) then
        ((List.range (min c1.length 3)).map
            (fun i => c1.getD i [] ++ aux.getD i [])).flatten ++ d1
          ++ S (", ") ++
          ((List.range (min c1.length 3)).map
            (fun i => c2.getD i [] ++ aux.getD i [])).flatten ++ d2
      else []

mutual

/-- expand_templates (src/wiki_extractor/template_processor.py lines 44-88):
above the frame ceiling return `None` (discard); otherwise splice the
expansion of every span `find_matching_braces` emits between the literal
gaps tracked by the cursor.  `lang` is the `language` argument (nested calls
of the source pass no language).  Every engine function consumes one unit of
fuel per call (structural recursion on the fuel); `outOfFuel` is the
verdict of an under-fuelled run. -/
def expand_templates : Nat → Env → List Frame → Option Str → Str →
    List Frame × EResult
  | 0, _, st, _, _ => (st, .outOfFuel)
  | f + 1, env, st, lang, wikitext =>
    if MAX_TEMPLATE_RECURSION_LEVELS ≤ st.length then (st, .discard)
    else expandLoop f env st lang wikitext (find_matching_braces wikitext 2) 0 []
termination_by structural fuel _ _ _ _ => fuel

/-- The `for s, e in find_matching_braces(...)` loop of expand_templates,
with cursor `cur` and accumulated `res`; a `None` from expand_template
discards the document, other abnormal results (crash, fuel) propagate. -/
def expandLoop : Nat → Env → List Frame → Option Str → Str →
    List (Nat × Nat) → Nat → Str → List Frame × EResult
  | 0, _, st, _, _, _, _, _ => (st, .outOfFuel)
  | f + 1, env, st, lang, w, spans, cur, res =>
    match spans with
    | [] => (st, .ok (res ++ w.drop cur))
    | (s, e) :: rest =>
      match expand_template f env st lang (pySlice w (s + 2) (e - 2)) with
      | (st2, .ok content) =>
        expandLoop f env st2 lang w rest e (res ++ pySlice w cur s ++ content)
      | (st2, r) => (st2, r)
termination_by structural fuel _ _ _ _ _ _ _ => fuel

/-- expand_template (template_processor.py lines 90-352), entry part: frame
guard (returns `''`), `split_parts`, the crash of `parts[0]` on an empty
body, and expansion of the title; a `None` title (deny-listed inside) is
returned as discard. -/
def expand_template : Nat → Env → List Frame → Option Str → Str →
    List Frame × EResult
  | 0, _, st, _, _ => (st, .outOfFuel)
  | f + 1, env, st, lang, body =>
    if MAX_TEMPLATE_RECURSION_LEVELS ≤ st.length then (st, .ok [])
    else
      match split_parts body with
      | [] => (st, .crash)
      | parts0 :: partsTail =>
        match expand_templates f env st none (pyStrip parts0) with
        | (st1, .ok title) =>
          expandTitle f env st1 lang title (parts0 :: partsTail)
        | (st1, r) => (st1, r)
termination_by structural fuel _ _ _ _ => fuel

/-- expand_template after the title is known: the ordered special-case
chain (lines 113-260), then magic words, parser functions and the template
lookup.  A parser-function `None` return reaches `expand_templates(None)`,
which raises `TypeError` on `len(None)` unless the frame guard fires first;
a `None` from re-expanding the function result becomes `''` (lines
256-258). -/
def expandTitle : Nat → Env → List Frame → Option Str → Str → List Str →
    List Frame × EResult
  | 0, _, st, _, _, _ => (st, .outOfFuel)
  | f + 1, env, st, lang, title, parts =>
    if notExpandMatch title then (st, .ok [])
    else if lowerStr title ∈ env.ignoreTemplates then (st, .ok [])
    else if lowerStr title ∈ env.discardTemplates then (st, .discard)
    else if (S ("lang-")).isPrefixOf (lowerStr title) then
      (st, .ok (langDashResult env lang parts))
    else if (S ("lang")).isPrefixOf (lowerStr title) then
      if parts.length < 3 then (st, .ok []) else (st, .ok (parts.getD 2 []))
    else if (S ("ipa")).isPrefixOf (lowerStr title) then
      if parts.length < 2 then (st, .ok []) else (st, .ok (parts.getD 1 []))
    else if (S ("segle")).isPrefixOf (lowerStr title) then
      if parts.length < 2 then (st, .ok [])
      else
        match expand_templates f env st none
            (['{', '{', 'u', 'c', ':'] ++ parts.getD 1 [] ++ ['}', '}']) with
        | (st2, .ok seg) =>
          if parts.length = 2 then (st2, .ok (S ("segle ") ++ seg))
          else if parts.getD 2 [] = ['-'] then
            (st2, .ok (S ("segle ") ++ seg ++ S (" aC")))
          else (st2, .ok (S ("segle ") ++ seg))
        | (st2, r) => (st2, r)
    else if (S ("coord")).isPrefixOf (lowerStr title) then
      (st, .ok (coordResult parts))
    else if (S ("audio")).isPrefixOf (lowerStr title) then
      if parts.length = 3 then (st, .ok (parts.getD 2 [])) else (st, .ok [])
    else
      -- subst/safesubst marker (re.sub removes the prefix occurrence)
      let subst := (S ("subst:")).isPrefixOf (lowerStr title) ||
        (S ("safesubst:")).isPrefixOf (lowerStr title)
      let title2 :=
        if (S ("subst:")).isPrefixOf (lowerStr title) then title.drop 6
        else if (S ("safesubst:")).isPrefixOf (lowerStr title) then title.drop 10
        else title
      match assoc env.magicWords (lowerStr title2) with
      | some v => (st, .ok v)
      | none =>
        match idxOfChar title2 ':' with
        | some i =>
          if 1 < i then
            match call_parser_function env.evalExpr (title2.take i)
                (pyStrip (title2.drop (i + 1)) :: parts.tail) with
            | none =>
              -- sharp_switch returned None: expand_templates(None) either
              -- takes the frame guard or crashes on len(None)
              if MAX_TEMPLATE_RECURSION_LEVELS ≤ st.length then (st, .ok [])
              else (st, .crash)
            | some ret =>
              match expand_templates f env st none ret with
              | (st2, .discard) => (st2, .ok [])
              | (st2, r) => (st2, r)
          else expandLookup f env st title2 subst parts
        | none => expandLookup f env st title2 subst parts
termination_by structural fuel _ _ _ _ _ => fuel

/-- Template lookup and instantiation (template_processor.py lines 263-352):
qualify and redirect the title, fetch and parse the body (a parse crash is
the IndexError of TemplateArg), pre-expand the parameters unless subst was
present, push the frame, substitute (any parameter node crashes, see
`substNode`), flatten, re-expand; a discard of the re-expansion is turned
into `''` WITHOUT popping the frame (`# self.frame.pop()` is commented out),
otherwise the frame is popped and the rebalanced value returned. -/
def expandLookup : Nat → Env → List Frame → Str → Bool → List Str →
    List Frame × EResult
  | 0, _, st, _, _, _ => (st, .outOfFuel)
  | f + 1, env, st, title2, subst, parts =>
    let ftitle := fully_qualified_template_title title2
    if ftitle = [] then (st, .ok [])
    else
      let ftitle2 := (assoc env.redirects ftitle).getD ftitle
      match assoc env.templates ftitle2 with
      | none => (st, .ok [])
      | some tbody =>
        match templateParse tbody with
        | .error _ => (st, .crash)
        | .ok tpl =>
          match
            (if subst then (st, Sum.inl (parts.tail.map some))
             else evalParams f env st parts.tail []) with
          | (st2, .inr r) => (st2, r)
          | (st2, .inl params) =>
            let st3 := (ftitle2, parse_template_parameters params) :: st2
            match substTemplate tpl 0 with
            | .error _ => (st3, .crash)
            | .ok inst =>
              match expand_templates f env st3 none (env.htmlFlatten inst) with
              | (st4, .ok v) => (st4.tail, .ok (balance_brackets v))
              | (st4, .discard) => (st4, .ok [])
              | (st4, r) => (st4, r)
termination_by structural fuel _ _ _ _ _ => fuel

/-- The parameter pre-expansion `[self.expand_templates(p) for p in params if
p is not None]` (line 321): sequential, keeping `None` results (a discarded
parameter) in the list; crash/fuel aborts. -/
def evalParams : Nat → Env → List Frame → List Str → List (Option Str) →
    List Frame × (List (Option Str) ⊕ EResult)
  | 0, _, st, _, _ => (st, .inr .outOfFuel)
  | f + 1, env, st, ps, acc =>
    match ps with
    | [] => (st, .inl acc)
    | p :: rest =>
      match expand_templates f env st none p with
      | (st2, .ok v) => evalParams f env st2 rest (acc ++ [some v])
      | (st2, .discard) => evalParams f env st2 rest (acc ++ [none])
      | (st2, .crash) => (st2, .inr .crash)
      | (st2, .outOfFuel) => (st2, .inr .outOfFuel)
termination_by structural fuel _ _ _ _ => fuel

end

/-! ## parsers/text_cleaner.py — the structural formatter `compact`

The embedding covers the text/json mode (`Extractor.HtmlFormatting = False`,
the class default): in that mode `listLevel` remains `''` for the whole run
(only the HTML branches ever extend it — the source comments the two
`len(listLevel)` branches with "implies Extractor.HtmlFormatting"), so the
blank-line and list-close branches are no-ops and the state is the page,
the pending-headers dict, and the two flags. -/

structure CompactCfg where
  discardSections : List Str
  keepSections : Bool
  markHeaders : Bool
deriving Repr, DecidableEq

structure CompactState where
  page : List Str
  headers : List (Nat × Str)
  emptySection : Bool
  skipSection : Bool
deriving Repr, DecidableEq

/-- Matcher for `SECTION_RE = (==+)\s*(.*?)\s*\1` under `re.match`: the
greedy `==+` tries the longest leading run of `=` first; for each run
length, the greedy `\s*` tries the most whitespace first and the lazy
`(.*?)` (which cannot cross a newline) the shortest title first; the
closing backreference is `k` equals signs reached after more whitespace.
Returns the title matched by group 2. -/
def matchAtK (k : Nat) (rest : Str) : Option Str :=
  ((List.range ((rest.takeWhile isPyWs).length + 1)).reverse).findSome? (fun j =>
    let r1 := rest.drop j
    (List.range (r1.length + 1)).findSome? (fun t =>
      let title := r1.take t
      if title.contains '\n' then none
      else
        let r2 := r1.drop t
        if (List.range ((r2.takeWhile isPyWs).length + 1)).any
            (fun w => (List.replicate k '=').isPrefixOf (r2.drop w)) then
          some title
        else none))

/-- `SECTION_RE.match(line)`: heading level (= marker count) and title. -/
def sectionMatch (line : Str) : Option (Nat × Str) :=
  let run := (line.takeWhile (· == '=')).length
  if run < 2 then none
  else
    ((List.range (run - 1)).map (fun i => run - i)).findSome? (fun k =>
      (matchAtK k (line.drop k)).map (fun t => (k, t)))

/-- Python-dict insert for the headers map (`headers[lev] = title`). -/
def hInsert (hs : List (Nat × Str)) (lev : Nat) (title : Str) :
    List (Nat × Str) :=
  if hs.any (fun p => p.1 == lev) then
    hs.map (fun p => if p.1 == lev then (lev, title) else p)
  else hs ++ [(lev, title)]

/-- Insertion step for `sorted(headers.items())` (keys are unique). -/
def insSorted (p : Nat × Str) : List (Nat × Str) → List (Nat × Str)
  | [] => [p]
  | q :: rest => if p.1 ≤ q.1 then p :: q :: rest else q :: insSorted p rest

def sortHeaders (hs : List (Nat × Str)) : List (Nat × Str) :=
  hs.foldr insSorted []

/-- The pending-header flush: when `keepSections`, a `'\n'` line followed by
the header titles in ascending level order. -/
def headerFlush (cfg : CompactCfg) (hs : List (Nat × Str)) : List Str :=
  if cfg.keepSections then S ("\n") :: (sortHeaders hs).map (·.2) else []

/-- `re.sub('[;#\*]', ' ', line)`: every list marker becomes a space. -/
def listSub (line : Str) : Str :=
  line.map (fun c => if c = ';' ∨ c = '#' ∨ c = '*' then ' ' else c)

/-- `re.sub("(^ *)(.+)", r"\1- \2", line)`: insert `"- "` after the leading
spaces, keeping at least one character for group 2; empty lines have no
match and stay unchanged. -/
def listDash (l : Str) : Str :=
  if l = [] then l
  else
    let j := min (l.takeWhile (· == ' ')).length (l.length - 1)
    l.take j ++ '-' :: ' ' :: l.drop j

/-- The list-item / residual / plain-text tail of the compact loop
(text_cleaner.py lines 180-247, text mode), applied to the possibly
indent-stripped line. -/
def listOrText (cfg : CompactCfg) (st : CompactState) (l : Str) :
    CompactState :=
  if l.headD ' ' = '*' ∨ l.headD ' ' = '#' ∨ l.headD ' ' = ';' then
    let st2 :=
      if st.headers ≠ [] then
        { st with page := st.page ++ headerFlush cfg st.headers, headers := [] }
      else st
    { st2 with page := st2.page ++ [listDash (listSub l)], emptySection := false }
  else if l.headD ' ' = '{' ∨ l.headD ' ' = '|' ∨ l.getLast? = some '}' then st
  else if (l.headD ' ' = '(' ∧ l.getLast? = some ')') ∨
      pyStripChars ['.', '-'] l = [] then st
  else if st.headers ≠ [] then
    { st with page := st.page ++ headerFlush cfg st.headers ++ [l],
              headers := [], emptySection := false }
  else if !st.emptySection then { st with page := st.page ++ [l] }
  else st

/-- Non-heading, non-skipped line handling: the `++title++` branch, the
leading-`:` indent strip (dropping emptied lines), then `listOrText`. -/
def stepContent (cfg : CompactCfg) (st : CompactState) (line : Str) :
    CompactState :=
  let isPP := (S ("++")).isPrefixOf line
  let ppTitle := pySlice line 2 (line.length - 2)
  if isPP ∧ ppTitle ≠ [] then
    let t2 :=
      if ppTitle.getLast? ≠ some '!' ∧ ppTitle.getLast? ≠ some '?' then
        ppTitle ++ ['.']
      else ppTitle
    { st with page := st.page ++ [t2] }
  else
    let isColon := ¬isPP ∧ line.headD ' ' = ':'
    let line2 := if isColon then line.dropWhile (· == ':') else line
    if isColon ∧ line2.length < 1 then st
    else listOrText cfg st line2

/-- One iteration of the compact loop (text_cleaner.py lines 118-251, text
mode): blank lines are no-ops (no list state in text mode), headings update
the skip flag and the pending headers, and lines inside a discarded section
are dropped. -/
def compactStep (cfg : CompactCfg) (st : CompactState) (line : Str) :
    CompactState :=
  if line = [] then st
  else
    match sectionMatch line with
    | some (lev, title) =>
      if lowerStr title ∈ cfg.discardSections then
        { st with skipSection := true, emptySection := true }
      else
        let title2 :=
          if title ≠ [] ∧ title.getLast? ≠ some '!' ∧ title.getLast? ≠ some '?'
          then title ++ ['.'] else title
        let title3 :=
          if cfg.markHeaders then List.replicate lev '#' ++ ' ' :: title2
          else title2
        { st with skipSection := false,
                  headers := (hInsert st.headers lev title3).filter
                    (fun p => p.1 ≤ lev),
                  emptySection := true }
    | none =>
      if st.skipSection then st
      else stepContent cfg st line

/-- compact (src/wiki_extractor/parsers/text_cleaner.py lines 104-253),
text mode: fold the step over the lines of the input. -/
def compact (cfg : CompactCfg) (text : Str) : List Str :=
  ((splitChar text '\n').foldl (compactStep cfg)
    ⟨[], [], false, false⟩).page

/-! ## Concrete environments and inputs for the claims -/

/-- Error marker returned by sharp_expr on evaluation failure. -/
def errMarker : Str := S ("<span class=\"error\"></span>")

/-- Environment with an empty template store and the initial MagicWords
values (`{'!': '|'}`); the external collaborators are instantiated with the
behaviour they have on the fragments arising here: `htmlFlatten` is the
identity (BeautifulSoup's `get_text` on tag-free text), the locale resolver
always fails, the expression evaluator always yields the error marker. -/
def envEmpty : Env :=
  { templates := []
    redirects := []
    ignoreTemplates := []
    discardTemplates := []
    magicWords := [(S ("!"), S ("|"))]
    resolve := fun _ _ => none
    htmlFlatten := id
    evalExpr := fun _ => errMarker }

/-- The spec's §8 discard-propagation scenario: store
`{"Template:X": "{{deny}}"}` with `deny` on the discard-list (plus a plain
template `Y` for the balanced-frame comparison). -/
def envC1 : Env :=
  { envEmpty with
    templates :=
      [(S ("Template:X"), ['{', '{'] ++ S ("deny") ++ ['}', '}']),
       (S ("Template:Y"), S ("hello"))]
    discardTemplates := [S ("deny")] }

def tplXCall : Str := ['{', '{', 'X', '}', '}']

def tplDenyCall : Str := ['{', '{'] ++ S ("deny") ++ ['}', '}']

def c2text : Str := ['{', '{', 'a', '{', '{', 'b', '}', '}', 'c', '}', '}']

/-- The self-referential magic-word value `{{#iferror:{{pagename}}}}`: the
article title becomes the `pagename` magic word
(`Extractor._setup_magic_words`), so an article titled with this very string
realises it. -/
def pagenameV : Str :=
  ['{', '{'] ++ S ("#iferror:") ++ ['{', '{'] ++ S ("pagename") ++
    ['}', '}'] ++ ['}', '}']

/-- Environment of the C3 divergence: the `pagename` magic word carries
`pagenameV`. -/
def envC3 : Env :=
  { envEmpty with
    magicWords := [(S ("!"), S ("|")), (S ("pagename"), pagenameV)] }

/-- One lap of the divergent computation: nine fuel units after entering
`expand_templates` on `pagenameV` the engine is back at `expand_templates`
on `pagenameV` (four units above the base), wrapped only in the result
post-processing of the `#iferror` dispatch and of the span loop.  Both
sides reduce to the same stuck term, so this is definitional. -/
theorem iferrorLap (f : Nat) :
    expand_templates (f + 9) envC3 [] none pagenameV =
      (match (match expand_templates (f + 4) envC3 [] none pagenameV with
              | (st2, EResult.discard) => (st2, EResult.ok [])
              | (st2, r) => (st2, r)) with
       | (st2, EResult.ok content) =>
         (st2, EResult.ok (pagenameV.take 11 ++ pagenameV ++ (content ++ [])))
       | (st2, r) => (st2, r)) := rfl

/-! ## The claims -/

/-- C1 (code_bug): the claim — and §8 of the spec, with this very example —
says a deny-listed title invoked at any nesting depth discards the whole
document.  The code does not: a discard arising from re-expanding a
successfully looked-up template body is converted to `''` at
template_processor.py lines 341-344 (`if value is None: return ''`, with
`self.frame.pop()` commented out), so `expand_templates("{{X}}")` returns
the empty string (and leaks the frame) instead of the discard signal, while
the directly deny-listed `{{deny}}` does discard. -/
theorem c1_nested_discard_lost :
    expand_templates 30 envC1 [] none tplXCall =
      ([(S ("Template:X"), [])], .ok []) ∧
    expand_templates 30 envC1 [] none tplDenyCall = ([], .discard) :=
  ⟨rfl, rfl⟩

/-- C2 (corrected, counterexample): the claim says `find_matching_braces`
returns exactly the top-level spans — for `"{{a{{b}}c}}"` that would be
`[(0, 11)]` — and that expansion leaves no text behind (with an empty store
the whole input would expand to `''`).  Both fail: the nested span is also
returned, and the expansion emits the stray prefix `"{{a"`. -/
theorem c2_counterexample :
    find_matching_braces c2text 2 ≠ [(0, 11)] ∧
    (expand_templates 30 envEmpty [] none c2text).2 ≠ .ok [] := by
  decide

/-- C2 (corrected, amended): `find_matching_braces` returns every matched
brace pair, nested pairs included, ordered by closing offset
(`"{{a{{b}}c}}"` yields `[(3, 8), (0, 11)]`), and `expand_templates`
splices expansions with a forward-only cursor, so a nested span is expanded
twice and text before it is emitted verbatim and then lost: with an empty
template store the input expands to `"{{a"`. -/
theorem c2_all_spans_close_order :
    find_matching_braces c2text 2 = [(3, 8), (0, 11)] ∧
    expand_templates 30 envEmpty [] none c2text = ([], .ok ['{', '{', 'a']) :=
  ⟨rfl, rfl⟩

/-- C3 (code_bug): the claim — and §8 of the spec — promises termination
bounded by the recursion ceilings for every input and configuration.  The
code violates it: with the `pagename` magic word set to
`{{#iferror:{{pagename}}}}` (the article title, attacker-controlled), the
`#iferror` parser function returns its expanded argument, which is
re-expanded at unchanged frame depth — no ceiling guards this path, and
expansion of that very string never terminates.  Formally: the run exhausts
every fuel. -/
theorem c3_expansion_diverges :
    ∀ fuel, expand_templates fuel envC3 [] none pagenameV = ([], .outOfFuel) := by
  intro fuel
  induction fuel using Nat.strong_induction_on with
  | _ F ih =>
    rcases Nat.lt_or_ge F 9 with h | h
    · interval_cases F <;> rfl
    · obtain ⟨f, rfl⟩ : ∃ f, F = f + 9 := ⟨F - 9, by omega⟩
      rw [iferrorLap f, ih (f + 4) (by omega)]

/-- C4 (code_bug): the claim — and §3 of the spec — says every
expand_template invocation restores the frame stack depth on every return
path, including the nested-discard path.  The code pops on the success path
but not on the nested-discard path (`self.frame.pop()` is commented out
before `return ''` at template_processor.py line 343): expanding `X` (whose
body's re-expansion discards) leaves one frame behind, while expanding the
plain template `Y` restores the empty stack. -/
theorem c4_frame_leaked_on_discard_path :
    expand_template 30 envC1 [] none (S ("X")) =
      ([(S ("Template:X"), [])], .ok []) ∧
    expand_template 30 envC1 [] none (S ("Y")) = ([], .ok (S ("hello"))) :=
  ⟨rfl, rfl⟩

/-- C5 (corrected, counterexample): the claim says the positional counter
advances for named arguments too, so that `["a", "x=1", "b"]` keys `b` as
`"3"`.  It does not: no key `"3"` is bound and `b` is keyed `"2"`. -/
theorem c5_counterexample :
    lookupDict (parse_template_parameters
      [some (S ("a")), some (S ("x=1")), some (S ("b"))]) (S ("3")) = none ∧
    lookupDict (parse_template_parameters
      [some (S ("a")), some (S ("x=1")), some (S ("b"))]) (S ("2")) =
      some (S ("b")) := by
  decide

/-- C5 (corrected, amended): the 1-based positional counter advances only
for unnamed arguments — a named `name=value` argument leaves it unchanged —
so `["a", "x=1", "b"]` binds `{"1": "a", "x": "1", "2": "b"}`; last
assignment for a key still wins, as in the claim's second example. -/
theorem c5_positional_counter :
    parse_template_parameters
      [some (S ("a")), some (S ("x=1")), some (S ("b"))] =
      [(S ("1"), S ("a")), (S ("x"), S ("1")), (S ("2"), S ("b"))] ∧
    parse_template_parameters
      [some (S ("a")), some (S ("b")), some (S ("c")), some (S ("2=B"))] =
      [(S ("1"), S ("a")), (S ("2"), S ("B")), (S ("3"), S ("c"))] := by
  decide

/-- C6 (corrected, counterexample): the claim says a matched case with an
empty value falls through to the next case's value, so
`#switch("x", "x=", "y=2")` would give `"2"`.  It does not: the `found`
flag is never set, the matched empty value is returned immediately. -/
theorem c6_counterexample :
    sharp_switch (S ("x")) [S ("x="), S ("y=2")] = some ([] : Str) ∧
    some ([] : Str) ≠ some (S ("2")) := by
  decide

/-- C6 (corrected, amended): the first case whose label list (split on `|`,
trimmed) contains the trimmed primary wins and its (possibly empty, for a
bare label `None`) value is returned immediately — there is no empty-value
fall-through; `#default` records a fallback returned only when no case
matches, as in the spec's example. -/
theorem c6_first_match_immediate :
    (∀ prim pre c rest dflt,
      (∀ p ∈ pre, pyStrip prim ∉ (splitChar (switchLabel p) '|').map pyStrip) →
      pyStrip prim ∈ (splitChar (switchLabel c) '|').map pyStrip →
      switchGo (pyStrip prim) (pre ++ c :: rest) dflt = switchValue c) ∧
    sharp_switch (S ("z")) [S ("x=1"), S ("y=2"), S ("#default=9")] =
      some (S ("9")) ∧
    sharp_switch (S ("x")) [S ("x="), S ("y=2")] = some ([] : Str) := by
  refine ⟨?_, by decide, by decide⟩
  intro prim pre c rest dflt hpre hc
  induction pre generalizing dflt with
  | nil =>
    simp only [List.nil_append, switchGo]
    rw [if_pos hc]
  | cons q qs ih =>
    have hq : pyStrip prim ∉ (splitChar (switchLabel q) '|').map pyStrip :=
      hpre q (List.mem_cons_self q qs)
    simp only [List.cons_append, switchGo]
    rw [if_neg hq]
    exact ih _ (fun p hp => hpre p (List.mem_cons_of_mem q hp))

/-- Witness for C6: the general first-match statement applied at a concrete
case list. -/
theorem c6_witness :
    switchGo (pyStrip (S ("x"))) ([S ("a=1")] ++ S ("x=22") :: []) none =
      switchValue (S ("x=22")) :=
  c6_first_match_immediate.1 (S ("x")) [S ("a=1")] (S ("x=22")) [] none
    (by decide) (by decide)

/-- C7 (corrected, counterexample): the claim says `#ifeq` returns the
then-value whenever both sides trim equal, including when both trim to the
empty string; but `#ifeq("", "", "match", "nomatch")` returns
`"nomatch"`. -/
theorem c7_counterexample :
    sharp_ifeq (S ("")) (S ("")) (S ("match")) (some (S ("nomatch"))) =
      S ("nomatch") ∧
    S ("nomatch") ≠ S ("match") := by
  decide

/-- C7 (corrected, amended): `#ifeq` returns the trimmed then-value exactly
when the two values trim equal AND the common trimmed value is non-empty
(the guard is `if rvalue and ...`); otherwise — including when both trim to
empty — it returns the trimmed else-value.  The claim's non-empty example
still holds. -/
theorem c7_ifeq_characterization :
    (∀ a b t e, sharp_ifeq a b t (some e) =
      if pyStrip b ≠ [] ∧ pyStrip a = pyStrip b then pyStrip t else pyStrip e) ∧
    sharp_ifeq (S (" a ")) (S ("a")) (S ("match")) (some (S ("nomatch"))) =
      S ("match") := by
  refine ⟨?_, by decide⟩
  intro a b t e
  simp only [sharp_ifeq]
  by_cases h : pyStrip b ≠ [] ∧ pyStrip a = pyStrip b
  · rw [if_pos h, if_pos h]
    by_cases ht : t = []
    · subst ht
      rw [if_neg (by simp)]
      rfl
    · rw [if_pos ht]
  · rw [if_neg h, if_neg h]
    by_cases he : e = []
    · subst he
      rw [if_neg (by simp)]
      rfl
    · rw [if_pos he]

def cfgC8 : CompactCfg :=
  { discardSections := [S ("bad")], keepSections := true, markHeaders := false }

def c8text : Str :=
  S ("==Bad==\ncontent1\n===Sub===\ncontent2\n==Good==\ncontent3")

/-- C8 (corrected, counterexample): the claim says content under a deeper
subheading of a discarded section is also dropped; but with `bad` in the
discard set, `content2` under the deeper `===Sub===` appears in the
output. -/
theorem c8_counterexample : S ("content2") ∈ compact cfgC8 c8text := by
  decide

/-- C8 (corrected, amended): after a heading whose lower-cased title is in
the discard set, lines are dropped only until the next heading line of ANY
level whose title is not itself in the discard set — a deeper subheading
already ends the skip — and non-heading lines in skip mode leave the state
unchanged; on the claim's scenario the deeper section's content
reappears. -/
theorem c8_skip_until_any_heading :
    (∀ cfg st line, st.skipSection = true → sectionMatch line = none →
      compactStep cfg st line = st) ∧
    (∀ cfg st line lev title, sectionMatch line = some (lev, title) →
      lowerStr title ∉ cfg.discardSections →
      (compactStep cfg st line).skipSection = false) ∧
    compact cfgC8 c8text =
      [S ("\n"), S ("Sub."), S ("content2"), S ("\n"), S ("Good."),
       S ("content3")] := by
  refine ⟨?_, ?_, by decide⟩
  · intro cfg st line hskip hsec
    by_cases hl : line = []
    · simp [compactStep, hl]
    · simp [compactStep, hl, hsec, hskip]
  · intro cfg st line lev title hsec hnd
    have hl : line ≠ [] := by
      intro h
      rw [h, show sectionMatch ([] : Str) = none from rfl] at hsec
      cases hsec
    simp [compactStep, hl, hsec, hnd]

/-- Witness for C8: the skip-mode step lemma and the skip-exit lemma applied
at concrete states and lines. -/
theorem c8_witness :
    compactStep cfgC8 ⟨[], [], true, true⟩ (S ("content")) =
      ⟨[], [], true, true⟩ ∧
    (compactStep cfgC8 ⟨[], [], true, true⟩ (S ("==Ok=="))).skipSection =
      false :=
  ⟨c8_skip_until_any_heading.1 cfgC8 ⟨[], [], true, true⟩ (S ("content"))
      (by rfl) (by decide),
   c8_skip_until_any_heading.2.1 cfgC8 ⟨[], [], true, true⟩ (S ("==Ok=="))
      2 (S ("Ok")) (by decide) (by decide)⟩

/-- C9 (confirmed): `balance_brackets` is idempotent — a balanced result
has an empty unmatched-brace automaton state, so a second pass adds nothing
— and the spec's two examples hold. -/
theorem c9_balance_idempotent :
    (∀ s, balance_brackets (balance_brackets s) = balance_brackets s) ∧
    balance_brackets ['a', '}', '}', 'b'] = ['{', '{', 'a', '}', '}', 'b'] ∧
    balance_brackets ['{', '{', 'a'] = ['{', '{', 'a', '}', '}'] := by
  refine ⟨?_, by decide, by decide⟩
  intro s
  have h0 := pairRun_balanced s
  rw [balance_brackets_eq (balance_brackets s), h0]
  simp

/-- C10 (confirmed): on text without any matched `{{...}}` span and below
the frame ceiling, expansion is the identity (two fuel units suffice: one
for the call, one for the empty loop). -/
theorem c10_identity_on_template_free :
    ∀ (env : Env) (st : List Frame) (lang : Option Str) (w : Str) (f : Nat),
      find_matching_braces w 2 = [] →
      st.length < MAX_TEMPLATE_RECURSION_LEVELS →
      expand_templates (f + 2) env st lang w = (st, .ok w) := by
  intro env st lang w f hspans hlen
  rw [show f + 2 = (f + 1) + 1 from rfl]
  simp only [expand_templates]
  rw [if_neg (by omega)]
  rw [hspans]
  simp only [expandLoop]
  simp

/-- Witness for C10: identity expansion of a concrete template-free text. -/
theorem c10_witness :
    expand_templates 7 envEmpty [] none (S ("hello")) =
      ([], .ok (S ("hello"))) :=
  c10_identity_on_template_free envEmpty [] none (S ("hello")) 5
    (by rfl) (by decide)

end WikiX
